import Mathlib

/-!
Verification of the session-orchestration core of GeminiAudioVisualAI
(`src/main/audio_gemini_model.py`), shallowly embedded in Lean.

File contents are modelled as `List Char` (one `Char` per byte; the
transcript and handle files only ever receive text written by the program,
which in the claims under study is ASCII, so byte = char).  An absent file
is `none`; `some c` is a file whose contents are `c`.  The newline
character `'\n'` is the sole line separator, matching the bytes the
program itself writes on a POSIX system.
-/

namespace GeminiAudioVisual

/-- Whitespace characters recognised by Python's `str.strip()` for the
ASCII range (space, tab, newline, carriage return, vertical tab, form feed). -/
def isPyWs (c : Char) : Bool :=
  c = ' ' || c = '\t' || c = '\n' || c = '\r' || c = '\x0b' || c = '\x0c'

/-- Python `str.strip()` on a character list: drop whitespace from both ends. -/
def pyStripL (s : List Char) : List Char :=
  ((s.dropWhile isPyWs).reverse.dropWhile isPyWs).reverse

/-- Python `str.strip()` on a `String`. -/
def pyStrip (s : String) : String :=
  String.mk (pyStripL s.data)

/-! ## Transcript/output sink (`clear_output_file`, `save_code_to_file`,
`get_all_lines_from_output`) -/

/-- The `needs_space` computation of `save_code_to_file`: the last byte of
the file is read when the file exists and is non-empty (`last_char`), and a
separating space is required when that byte is not in `{"", " ", "\n"}`. -/
def needsSpace (file : Option (List Char)) : Bool :=
  match file with
  | none => false
  | some c =>
    match c.getLast? with
    | none => false
    | some ch => !(ch = ' ' || ch = '\n')

/-- The sentence-boundary test of `save_code_to_file`:
`re.search(r"[.?!]$", code)` on the already-stripped text, which has no
trailing newline, so the test is simply on the final character. -/
def endsPunct (code : List Char) : Bool :=
  match code.getLast? with
  | none => false
  | some ch => ch = '.' || ch = '?' || ch = '!'

/-- The `code_to_write` string assembled by `save_code_to_file`: optional
separating space, the stripped text, and an optional trailing newline. -/
def codeToWrite (code : List Char) (file : Option (List Char)) : List Char :=
  (if needsSpace file then [' '] else []) ++ pyStripL code ++
    (if endsPunct (pyStripL code) then ['\n'] else [])

/-- `AudioGeminiModel.save_code_to_file` in its default append mode
(`mode="a"`), acting on the transcript file state: a no-op when the
stripped text is empty, otherwise `code_to_write` is appended (creating
the file when absent). -/
def save_code_to_file (code : List Char) (file : Option (List Char)) :
    Option (List Char) :=
  if pyStripL code = [] then file
  else some (file.getD [] ++ codeToWrite code file)

/-- `AudioGeminiModel.clear_output_file`: truncate the file to zero length,
creating it if necessary. -/
def clear_output_file (_file : Option (List Char)) : Option (List Char) :=
  some []

/-- Python text-file line iteration (`for line in f`): the contents are cut
immediately after every `'\n'`; a final segment without `'\n'` is a line of
its own; an empty final segment yields no line.  `acc` holds the current
line read so far, in reverse. -/
def pyIterLines : List Char → List Char → List (List Char)
  | [], acc => if acc = [] then [] else [acc.reverse]
  | c :: rest, acc =>
    if c = '\n' then (acc.reverse ++ ['\n']) :: pyIterLines rest []
    else pyIterLines rest (c :: acc)

/-- Python `line.rstrip("\n")`: drop every trailing newline character. -/
def rstripNl (l : List Char) : List Char :=
  (l.reverse.dropWhile (fun c => c = '\n')).reverse

/-- `AudioGeminiModel.get_all_lines_from_output`: an absent file yields `[]`
(with a diagnostic); otherwise the file is iterated line by line and each
line is `rstrip`-ped of newlines.  The bordered display is pure printing
and carries no further information than the returned lines. -/
def get_all_lines_from_output (file : Option (List Char)) : List (List Char) :=
  match file with
  | none => []
  | some c => (pyIterLines c []).map rstripNl

/-- The line sequence of a text, splitting on `'\n'` (the lines as written:
`content.split("\n")`).  `acc` holds the current segment in reverse. -/
def splitNl : List Char → List Char → List (List Char)
  | [], acc => [acc.reverse]
  | c :: rest, acc =>
    if c = '\n' then acc.reverse :: splitNl rest [] else splitNl rest (c :: acc)

/-- Remove a trailing empty line, when present, from a line sequence. -/
def dropTrailingEmpty (ls : List (List Char)) : List (List Char) :=
  if ls.getLast? = some [] then ls.dropLast else ls

/-- Fold a sequence of appends over the transcript file. -/
def appendAll (ts : List (List Char)) (file : Option (List Char)) :
    Option (List Char) :=
  ts.foldl (fun f t => save_code_to_file t f) file

/-! ### Sink lemmas -/

theorem dropWhile_eq_self_of_not (p : Char → Bool) :
    ∀ l : List Char, (∀ c ∈ l, p c = false) → l.dropWhile p = l := by
  intro l h
  cases l with
  | nil => rfl
  | cons a t =>
    have ha : p a = false := h a (by simp)
    simp [List.dropWhile, ha]

theorem rstripNl_append_nl (l : List Char) (h : ∀ c ∈ l, c ≠ '\n') :
    rstripNl (l ++ ['\n']) = l := by
  unfold rstripNl
  rw [List.reverse_append]
  have hstep : (['\n'].reverse ++ l.reverse) = '\n' :: l.reverse := by simp
  rw [hstep]
  have hfalse : ∀ c ∈ l.reverse, (fun c => decide (c = '\n')) c = false := by
    intro c hc
    simp only [List.mem_reverse] at hc
    simpa using h c hc
  rw [List.dropWhile_cons]
  simp only [decide_True, if_true]
  rw [dropWhile_eq_self_of_not _ _ hfalse, List.reverse_reverse]

theorem rstripNl_of_no_nl (l : List Char) (h : ∀ c ∈ l, c ≠ '\n') :
    rstripNl l = l := by
  unfold rstripNl
  have hfalse : ∀ c ∈ l.reverse, (fun c => decide (c = '\n')) c = false := by
    intro c hc
    simp only [List.mem_reverse] at hc
    simpa using h c hc
  rw [dropWhile_eq_self_of_not _ _ hfalse, List.reverse_reverse]

theorem splitNl_ne_nil : ∀ (s acc : List Char), splitNl s acc ≠ [] := by
  intro s
  induction s with
  | nil => intro acc; simp [splitNl]
  | cons c rest ih =>
    intro acc
    by_cases h : c = '\n' <;> simp [splitNl, h, ih]

theorem dropTrailingEmpty_cons (x : List Char) (l : List (List Char))
    (h : l ≠ []) :
    dropTrailingEmpty (x :: l) = x :: dropTrailingEmpty l := by
  obtain ⟨y, t, rfl⟩ := List.exists_cons_of_ne_nil h
  unfold dropTrailingEmpty
  rw [List.getLast?_cons_cons]
  by_cases hl : (y :: t).getLast? = some []
  · simp only [hl, if_pos rfl]
    rfl
  · simp [hl]

/-- Core read-back lemma: iterating the file Python-style and stripping
the newline from each line yields exactly the `'\n'`-separated segments of
the contents, minus a trailing empty segment. -/
theorem pyIterLines_rstrip (s : List Char) :
    ∀ acc : List Char, (∀ c ∈ acc, c ≠ '\n') →
      (pyIterLines s acc).map rstripNl = dropTrailingEmpty (splitNl s acc) := by
  induction s with
  | nil =>
    intro acc hacc
    by_cases h : acc = []
    · subst h
      simp [pyIterLines, splitNl, dropTrailingEmpty]
    · have hrev : acc.reverse ≠ [] := by simpa using h
      have hnonl : ∀ c ∈ acc.reverse, c ≠ '\n' := by
        intro c hc
        exact hacc c (List.mem_reverse.mp hc)
      have e1 : pyIterLines [] acc = [acc.reverse] := by
        simp [pyIterLines, h]
      have e2 : splitNl [] acc = [acc.reverse] := by
        simp [splitNl]
      rw [e1, e2, List.map_cons, List.map_nil, rstripNl_of_no_nl _ hnonl]
      unfold dropTrailingEmpty
      have hne : ([acc.reverse] : List (List Char)).getLast? ≠ some [] := by
        simp [hrev]
      rw [if_neg hne]
  | cons c rest ih =>
    intro acc hacc
    by_cases h : c = '\n'
    · subst h
      have hnonl : ∀ d ∈ acc.reverse, d ≠ '\n' := by
        intro d hd
        exact hacc d (List.mem_reverse.mp hd)
      have e1 : pyIterLines ('\n' :: rest) acc =
          (acc.reverse ++ ['\n']) :: pyIterLines rest [] := by
        simp [pyIterLines]
      have e2 : splitNl ('\n' :: rest) acc = acc.reverse :: splitNl rest [] := by
        simp [splitNl]
      rw [e1, e2, List.map_cons, rstripNl_append_nl _ hnonl,
        dropTrailingEmpty_cons _ _ (splitNl_ne_nil rest []),
        ih [] (by intro d hd; simp at hd)]
    · have e1 : pyIterLines (c :: rest) acc = pyIterLines rest (c :: acc) := by
        simp [pyIterLines, h]
      have e2 : splitNl (c :: rest) acc = splitNl rest (c :: acc) := by
        simp [splitNl, h]
      rw [e1, e2]
      apply ih
      intro d hd
      rcases List.mem_cons.mp hd with h1 | h2
      · rw [h1]; exact h
      · exact hacc d h2

/-- Read-back of any existing file equals its written lines minus a
trailing empty line. -/
theorem get_all_lines_eq_lines_written (c : List Char) :
    get_all_lines_from_output (some c) = dropTrailingEmpty (splitNl c []) := by
  unfold get_all_lines_from_output
  exact pyIterLines_rstrip c [] (by intro d hd; simp at hd)

/-- Appending never deletes the file: from an existing file, the result
still exists. -/
theorem appendAll_isSome (ts : List (List Char)) :
    ∀ c : List Char, ∃ c2, appendAll ts (some c) = some c2 := by
  induction ts with
  | nil => intro c; exact ⟨c, rfl⟩
  | cons t rest ih =>
    intro c
    unfold appendAll
    simp only [List.foldl_cons]
    unfold save_code_to_file
    by_cases h : pyStripL t = []
    · simp only [if_pos h]
      exact ih c
    · simp only [if_neg h]
      exact ih _

theorem dropWhile_eq_nil_of_all (p : Char → Bool) :
    ∀ l : List Char, (∀ c ∈ l, p c = true) → l.dropWhile p = [] := by
  intro l h
  induction l with
  | nil => rfl
  | cons a tl ih =>
    simp only [List.dropWhile, h a (by simp), if_true]
    exact ih (fun c hc => h c (by simp [hc]))

theorem pyStripL_eq_nil_of_all_ws (t : List Char)
    (h : ∀ c ∈ t, isPyWs c = true) : pyStripL t = [] := by
  unfold pyStripL
  rw [dropWhile_eq_nil_of_all _ _ h]
  rfl

/-! ## Claim theorems for the transcript sink -/

/-- C6: `truncate()` (that is, `clear_output_file`) followed by any number
of `append` calls (`save_code_to_file`) followed by `renderAll`
(`get_all_lines_from_output`) returns exactly the lines written to the
file — the newline-separated segments of its contents — minus any trailing
empty line, in the order they were written. -/
theorem render_after_truncate_appends (ts : List (List Char))
    (file0 : Option (List Char)) :
    ∃ content,
      appendAll ts (clear_output_file file0) = some content ∧
      get_all_lines_from_output (appendAll ts (clear_output_file file0)) =
        dropTrailingEmpty (splitNl content []) := by
  obtain ⟨c2, hc2⟩ := appendAll_isSome ts []
  have hfix : appendAll ts (clear_output_file file0) = some c2 := hc2
  exact ⟨c2, hfix, by rw [hfix]; exact get_all_lines_eq_lines_written c2⟩

/-- Spec-side separator condition of the amended C7: the file exists, is
non-empty, and its last byte is neither a space byte nor a newline byte. -/
def lastByteNeedsSeparator (file : Option (List Char)) : Bool :=
  match file with
  | none => false
  | some c =>
    match c.getLast? with
    | none => false
    | some ch => !(ch = ' ' || ch = '\n')

/-- C7 (amended): for every append of text that is non-empty after
trimming, a single separating space is inserted before the appended text
if and only if the log file exists, is non-empty, and its last byte is
neither a space nor a newline; in particular no separating space is
inserted when the file is empty or absent.  (Other whitespace bytes such
as a tab do receive a separating space.) -/
theorem separator_space_rule (code : List Char) (file : Option (List Char))
    (h : pyStripL code ≠ []) :
    save_code_to_file code file =
      some (file.getD [] ++
        ((if lastByteNeedsSeparator file then [' '] else []) ++
          (pyStripL code ++
            (if endsPunct (pyStripL code) then ['\n'] else [])))) := by
  have hcond : needsSpace file = lastByteNeedsSeparator file := rfl
  unfold save_code_to_file codeToWrite
  rw [if_neg h, hcond]
  simp [List.append_assoc]

/-- C7 witness: appending "x" to a file ending in a letter inserts the
separating space. -/
theorem separator_space_rule_witness :
    pyStripL ['x'] ≠ [] ∧
      save_code_to_file ['x'] (some ['a']) = some ['a', ' ', 'x'] := by
  refine ⟨by decide, ?_⟩
  rw [separator_space_rule ['x'] (some ['a']) (by decide)]
  decide

/-- C7 counterexample to the claim as stated: a log file whose last byte
is a tab — a whitespace byte — still receives a separating space, because
the source only exempts `""`, `" "` and `"\n"`. -/
theorem separator_space_whitespace_counterexample :
    save_code_to_file ['x'] (some ['a', '\t']) = some ['a', '\t', ' ', 'x'] ∧
      isPyWs '\t' = true := by decide

/-- C9: appending text that is empty or consists only of whitespace leaves
the transcript log unchanged. -/
theorem whitespace_append_noop (t : List Char) (file : Option (List Char))
    (h : ∀ c ∈ t, isPyWs c = true) :
    save_code_to_file t file = file := by
  unfold save_code_to_file
  rw [if_pos (pyStripL_eq_nil_of_all_ws t h)]

/-- C9 witness: appending a space-tab string to a one-byte log leaves it
unchanged. -/
theorem whitespace_append_noop_witness :
    (∀ c ∈ [' ', '\t'], isPyWs c = true) ∧
      save_code_to_file [' ', '\t'] (some ['a']) = some ['a'] :=
  ⟨by decide, whitespace_append_noop [' ', '\t'] (some ['a']) (by decide)⟩

/-! ## Liveness monitor (`keep_alive`) -/

/-- Configuration of the liveness monitor: the idle threshold in seconds,
the `max_unanswered` maximum, and whether `self.session` is set. -/
structure KAConfig where
  idle_threshold : Nat
  max_unanswered : Nat
  session_exists : Bool
  deriving DecidableEq, Repr

/-- The monitor state shared with the rest of the model: `last_active`,
`awaiting_response` and `unanswered_prompts` of `AudioGeminiModel`. -/
structure KAState where
  last_active : Nat
  awaiting_response : Bool
  unanswered_prompts : Nat
  deriving DecidableEq, Repr

/-- What one polling tick of `keep_alive` sends, if anything. -/
inductive KAEvent where
  | noSend
  | keepAlivePrompt
  | pauseAnnouncement
  deriving DecidableEq, Repr

/-- The guard of a `keep_alive` tick:
`time_since_active > idle_threshold and self.session`. -/
def observed_idle (cfg : KAConfig) (now : Nat) (st : KAState) : Bool :=
  decide (now - st.last_active > cfg.idle_threshold) && cfg.session_exists

/-- One polling tick of `AudioGeminiModel.keep_alive` at time `now`, with
sends succeeding: when idle and not awaiting a response, send the
keep-alive prompt, set `awaiting_response`, increment the counter and
refresh `last_active`; when idle, awaiting, and the counter has reached
`max_unanswered`, send the pause announcement, zero the counter and
refresh `last_active`; otherwise do nothing. -/
def keep_alive_tick (cfg : KAConfig) (now : Nat) (st : KAState) :
    KAState × KAEvent :=
  if observed_idle cfg now st then
    if !st.awaiting_response then
      ({ last_active := now, awaiting_response := true,
         unanswered_prompts := st.unanswered_prompts + 1 },
       KAEvent.keepAlivePrompt)
    else if st.unanswered_prompts ≥ cfg.max_unanswered then
      ({ last_active := now, awaiting_response := true,
         unanswered_prompts := 0 },
       KAEvent.pauseAnnouncement)
    else (st, KAEvent.noSend)
  else (st, KAEvent.noSend)

/-- The `keep_alive` loop over a finite sequence of tick times. -/
def keep_alive_run (cfg : KAConfig) : List Nat → KAState → KAState × List KAEvent
  | [], st => (st, [])
  | t :: ts, st =>
    let r1 := keep_alive_tick cfg t st
    let r2 := keep_alive_run cfg ts r1.1
    (r2.1, r1.2 :: r2.2)

/-- Number of pause announcements in a sequence of tick events. -/
def countPauses (es : List KAEvent) : Nat :=
  es.countP (fun e => e = KAEvent.pauseAnnouncement)

/-! ## Capture producers (`listen_audio`, `get_screen`, `get_frames`) -/

/-- One outbound payload: a data buffer tagged with its MIME type, as the
dictionaries put on `out_queue`. -/
structure OutUnit where
  mime_type : String
  data : String
  deriving DecidableEq, Repr

/-- The state a capture producer touches: the activity clock and the
outbound queue. -/
structure ActState where
  last_active : Nat
  out_queue : List OutUnit
  deriving DecidableEq, Repr

/-- One successful microphone read in the `listen_audio` loop at time
`now`: the chunk is enqueued with MIME type `audio/pcm` and `last_active`
is refreshed. -/
def listen_audio_read (now : Nat) (chunk : String) (st : ActState) : ActState :=
  { last_active := now,
    out_queue := st.out_queue ++ [⟨"audio/pcm", chunk⟩] }

/-- One iteration of the `get_screen` loop: the JPEG frame is enqueued;
`last_active` is not touched. -/
def get_screen_capture (frame : String) (st : ActState) : ActState :=
  { st with out_queue := st.out_queue ++ [⟨"image/jpeg", frame⟩] }

/-- One iteration of the `get_frames` camera loop: the JPEG frame is
enqueued; `last_active` is not touched. -/
def get_frames_capture (frame : String) (st : ActState) : ActState :=
  { st with out_queue := st.out_queue ++ [⟨"image/jpeg", frame⟩] }

/-! ## Interactive text input (`send_text`) -/

/-- The quit commands of `send_text`. -/
def quit_commands : List String := ["q", "quit", "exit"]

/-- The quit test of `send_text`: `text.strip().lower() in quit_commands`. -/
def is_quit_command (text : String) : Bool :=
  quit_commands.contains ((pyStrip text).toLower)

/-- A message handed to `session.send` by the text-input loop. -/
structure SentText where
  payload : String
  end_of_turn : Bool
  deriving DecidableEq, Repr

/-- One iteration of the `send_text` loop, reading `text` at time `now`
with `last_active = la`: a quit command breaks the loop sending nothing
and leaving `last_active` untouched; any other input refreshes
`last_active` and is sent with `end_of_turn=True`, an empty input being
replaced by `"."` (Python truthiness of `text or "."`). -/
def send_text_step (text : String) (now la : Nat) : Nat × Option SentText :=
  if is_quit_command text then (la, none)
  else (now, some ⟨if text = "" then "." else text, true⟩)

/-- The `send_text` loop over a finite prefix of the input stream, each
input paired with the time it is read. -/
def send_text_loop : List (String × Nat) → Nat → Nat × List SentText
  | [], la => (la, [])
  | (t, now) :: rest, la =>
    match send_text_step t now la with
    | (la1, none) => (la1, [])
    | (la1, some m) =>
      let r := send_text_loop rest la1
      (r.1, m :: r.2)

/-! ### Claim theorems for the monitor and the text loop -/

/-- C2 divergence, evaluated at the failing input: with
`max_unanswered = 3`, three consecutive polling ticks each observing idle
time above the threshold (no genuine activity in between) send one
keep-alive prompt and zero pause announcements, and leave
`unanswered_prompts = 1` — because `awaiting_response` is never cleared,
the counter can never reach the maximum and the pause branch is
unreachable, contradicting both the claim and the method's docstring. -/
theorem pause_branch_unreachable_eval :
    observed_idle ⟨0, 3, true⟩ 1 ⟨0, false, 0⟩ = true ∧
    observed_idle ⟨0, 3, true⟩ 3 (keep_alive_tick ⟨0, 3, true⟩ 1 ⟨0, false, 0⟩).1 = true ∧
    observed_idle ⟨0, 3, true⟩ 5
      (keep_alive_tick ⟨0, 3, true⟩ 3 (keep_alive_tick ⟨0, 3, true⟩ 1 ⟨0, false, 0⟩).1).1 = true ∧
    keep_alive_run ⟨0, 3, true⟩ [1, 3, 5] ⟨0, false, 0⟩ =
      (⟨1, true, 1⟩, [KAEvent.keepAlivePrompt, KAEvent.noSend, KAEvent.noSend]) ∧
    countPauses (keep_alive_run ⟨0, 3, true⟩ [1, 3, 5] ⟨0, false, 0⟩).2 = 0 ∧
    (keep_alive_run ⟨0, 3, true⟩ [1, 3, 5] ⟨0, false, 0⟩).1.unanswered_prompts = 1 := by
  decide

/-- C4 (amended): `last_active` is refreshed by every successful
microphone read and by every interactive text input that is sent (a quit
command leaves it untouched); it is never touched by camera or screen
frame capture; and — contrary to the claim as stated — the liveness
monitor itself refreshes `last_active` whenever it sends a keep-alive
prompt or a pause announcement. -/
theorem last_active_update_sources :
    (∀ now chunk st, (listen_audio_read now chunk st).last_active = now) ∧
    (∀ frame st, (get_screen_capture frame st).last_active = st.last_active) ∧
    (∀ frame st, (get_frames_capture frame st).last_active = st.last_active) ∧
    (∀ text now la, (send_text_step text now la).1 =
      if is_quit_command text then la else now) ∧
    (∀ cfg now st, ((keep_alive_tick cfg now st).1).last_active =
      if (keep_alive_tick cfg now st).2 = KAEvent.noSend then st.last_active
      else now) := by
  refine ⟨fun now chunk st => rfl, fun frame st => rfl, fun frame st => rfl,
    ?_, ?_⟩
  · intro text now la
    unfold send_text_step
    by_cases h : is_quit_command text <;> simp [h]
  · intro cfg now st
    unfold keep_alive_tick
    by_cases h1 : observed_idle cfg now st
    · simp only [h1, if_true]
      by_cases h2 : st.awaiting_response
      · simp only [h2, Bool.not_true, Bool.false_eq_true, if_false]
        by_cases h3 : st.unanswered_prompts ≥ cfg.max_unanswered
        · simp [h3]
        · simp [h3]
      · simp [h2]
    · simp [h1]

/-- C4 counterexample to the claim as stated: a tick of the liveness
monitor that sends its synthetic keep-alive prompt does update
`last_active` (here from 0 to 5). -/
theorem keep_alive_refreshes_last_active :
    (keep_alive_tick ⟨0, 3, true⟩ 5 ⟨0, false, 0⟩).2 = KAEvent.keepAlivePrompt ∧
    (keep_alive_tick ⟨0, 3, true⟩ 5 ⟨0, false, 0⟩).1.last_active = 5 ∧
    (keep_alive_tick ⟨0, 3, true⟩ 5 ⟨0, false, 0⟩).1.last_active ≠ 0 := by
  decide

/-- C10: the text-input loop sends exactly the inputs before the first
quit command (trimmed lowercase "q"/"quit"/"exit"), each with the
end-of-turn flag set and an empty input replaced by "."; `last_active`
ends at the read time of the last sent input, untouched when the first
input already quits. -/
theorem send_text_loop_behavior (inputs : List (String × Nat)) (la : Nat) :
    send_text_loop inputs la =
      (((inputs.takeWhile fun p => !is_quit_command p.1).getLast?.map
          Prod.snd).getD la,
       (inputs.takeWhile fun p => !is_quit_command p.1).map
         fun p => ⟨if p.1 = "" then "." else p.1, true⟩) := by
  induction inputs generalizing la with
  | nil => simp [send_text_loop]
  | cons p rest ih =>
    obtain ⟨t, now⟩ := p
    by_cases h : is_quit_command t
    · simp [send_text_loop, send_text_step, h, List.takeWhile_cons]
    · have hstep : send_text_step t now la =
          (now, some ⟨if t = "" then "." else t, true⟩) := by
        simp [send_text_step, h]
      simp only [send_text_loop, hstep, List.takeWhile_cons, h,
        Bool.not_false, if_true, List.map_cons, ih now]
      cases htw : rest.takeWhile fun p => !is_quit_command p.1 with
      | nil => simp
      | cons q qs =>
        have hne : (q :: qs : List (String × Nat)) ≠ [] := by simp
        rw [List.getLast?_cons_cons, List.getLast?_eq_getLast_of_ne_nil hne]
        simp

/-! ## Inbound demultiplexer (`receive_audio`) -/

/-- A session-resumption update unit (branch 2 of the dispatch). -/
structure SRUpdate where
  resumable : Bool
  new_handle : Option String
  deriving DecidableEq, Repr

/-- One tool call inside an inbound unit: a name and opaque keyword
arguments. -/
structure ToolCallUnit where
  name : String
  arguments : List (String × String)
  deriving DecidableEq, Repr

/-- The `output_transcription` object of `server_content`. -/
structure Transcription where
  text : Option String
  deriving DecidableEq, Repr

/-- The `server_content` object of an inbound unit. -/
structure ServerContent where
  output_transcription : Option Transcription
  deriving DecidableEq, Repr

/-- One inbound response unit, with the attributes `receive_audio` probes:
`tool_calls`, `session_resumption_update`, `usage_metadata`, `data`,
`server_content`, `text` and `turn_complete`.  An absent or `None`
attribute is `none`. -/
structure Response where
  tool_calls : Option (List ToolCallUnit)
  session_resumption_update : Option SRUpdate
  usage_metadata : Option Nat
  data : Option String
  server_content : Option ServerContent
  text : Option String
  turn_complete : Bool
  deriving DecidableEq, Repr

/-- The structured result dictionary returned by `getFiles`. -/
structure GFResult where
  success : Bool
  files : List String
  count : Nat
  search_info : String
  deriving DecidableEq, Repr

/-- The `result` sent back in a tool response: either whatever `getFiles`
returned, or the structured failure dictionary
`{"success": False, "error": "Unknown tool: <name>"}`. -/
inductive ToolResultPayload where
  | fromGetFiles (r : GFResult)
  | errorDict (success : Bool) (error : String)
  deriving DecidableEq, Repr

/-- The correlated tool-response unit sent back through the session. -/
structure ToolResponse where
  name : String
  result : ToolResultPayload
  end_of_turn : Bool
  deriving DecidableEq, Repr

/-- The state the demultiplexer touches: the in-memory and persisted
session handle, the transcript file, the playback queue, the tool
responses sent, the tracked usage, and the end-of-turn renders. -/
structure RAState where
  latest_session_handle : Option String
  handle_file : Option String
  output_file : Option (List Char)
  audio_in_queue : List String
  sent_tool_responses : List ToolResponse
  tracked_usage : List Nat
  displays : List (List (List Char))
  deriving DecidableEq, Repr

/-- Fresh demultiplexer state: no handle, no transcript file, empty
queues and logs. -/
def initRAState : RAState :=
  { latest_session_handle := none, handle_file := none, output_file := none,
    audio_in_queue := [], sent_tool_responses := [], tracked_usage := [],
    displays := [] }

/-- Python truthiness of an optional string: present and non-empty. -/
def truthyOptStr : Option String → Bool
  | none => false
  | some s => decide (s ≠ "")

/-- Resolution and invocation of one tool call: `getFiles` is the single
registry entry and is invoked through the external callable `gf` (which
may raise); any other name yields the structured failure payload without
raising.  The response is tagged with the call's name and the end-of-turn
marker. -/
def dispatch_tool_call (gf : List (String × String) → Except String GFResult)
    (tc : ToolCallUnit) : Except String ToolResponse :=
  if tc.name = "getFiles" then
    match gf tc.arguments with
    | Except.ok r => Except.ok ⟨tc.name, ToolResultPayload.fromGetFiles r, true⟩
    | Except.error e => Except.error e
  else
    Except.ok ⟨tc.name,
      ToolResultPayload.errorDict false ("Unknown tool: " ++ tc.name), true⟩

/-- Dispatch every tool call of a unit in order, sending each response
back; a raise from the external callable propagates. -/
def send_tool_responses (gf : List (String × String) → Except String GFResult)
    (st : RAState) : List ToolCallUnit → Except String RAState
  | [] => Except.ok st
  | tc :: rest =>
    match dispatch_tool_call gf tc with
    | Except.error e => Except.error e
    | Except.ok resp =>
      send_tool_responses gf
        { st with sent_tool_responses := st.sent_tool_responses ++ [resp] } rest

/-- Branch 6 of the dispatch: plain-text fallback, appended to the
transcript (and echoed). -/
def plain_text_fallback (st : RAState) (last_text : Option String)
    (r : Response) : RAState × Option String :=
  if truthyOptStr r.text then
    ({ st with output_file :=
        save_code_to_file (r.text.getD "").data st.output_file }, last_text)
  else (st, last_text)

/-- Branches 2–6 of the per-unit dispatch, reached when the unit carries
no (truthy) tool calls: resumption update (write-through persistence),
usage tracking, audio enqueue (which consumes the unit), transcription
append (which consumes the unit whenever `output_transcription` is
present), then the plain-text fallback. -/
def response_step_rest (st0 : RAState) (last_text : Option String)
    (r : Response) : RAState × Option String :=
  let st1 :=
    match r.session_resumption_update with
    | some u =>
      if u.resumable && truthyOptStr u.new_handle then
        { st0 with latest_session_handle := u.new_handle,
                   handle_file := u.new_handle }
      else st0
    | none => st0
  let st2 :=
    match r.usage_metadata with
    | some u => { st1 with tracked_usage := st1.tracked_usage ++ [u] }
    | none => st1
  if truthyOptStr r.data then
    ({ st2 with audio_in_queue := st2.audio_in_queue ++ [r.data.getD ""] },
     last_text)
  else
    match r.server_content with
    | some sc =>
      match sc.output_transcription with
      | some ot =>
        (match ot.text with
         | some t =>
           if t ≠ "" then
             ({ st2 with output_file := save_code_to_file t.data st2.output_file },
              some t)
           else (st2, last_text)
         | none => (st2, last_text))
      | none => plain_text_fallback st2 last_text r
    | none => plain_text_fallback st2 last_text r

/-- The per-unit dispatch of `receive_audio`: a unit with a non-empty
`tool_calls` list is handled by the tool branch alone and short-circuits
the rest; otherwise branches 2–6 run. -/
def response_step (gf : List (String × String) → Except String GFResult)
    (acc : RAState × Option String) (r : Response) :
    Except String (RAState × Option String) :=
  match r.tool_calls with
  | some (tc :: tcs) =>
    match send_tool_responses gf acc.1 (tc :: tcs) with
    | Except.error e => Except.error e
    | Except.ok st2 => Except.ok (st2, acc.2)
  | some [] => Except.ok (response_step_rest acc.1 acc.2 r)
  | none => Except.ok (response_step_rest acc.1 acc.2 r)

/-- The per-turn iteration over the units of one inbound stream. -/
def run_responses (gf : List (String × String) → Except String GFResult) :
    List Response → RAState × Option String →
    Except String (RAState × Option String)
  | [], acc => Except.ok acc
  | r :: rest, acc =>
    match response_step gf acc r with
    | Except.error e => Except.error e
    | Except.ok acc2 => run_responses gf rest acc2

/-- Python truthiness of the loop-local `last_text`. -/
def truthyLastText : Option String → Bool
  | none => false
  | some t => decide (t ≠ "")

/-- The end-of-turn display guard
`if last_text or getattr(response, "turn_complete", None)`: short-circuit
on a truthy `last_text`; otherwise consult the `response` variable, which
still holds the previous turn's final unit — and is unbound (a
`NameError`) when no unit has ever been received. -/
def display_check (last_text : Option String) (lastResp : Option Response) :
    Except String Bool :=
  if truthyLastText last_text then Except.ok true
  else
    match lastResp with
    | none => Except.error "name 'response' is not defined"
    | some resp => Except.ok resp.turn_complete

/-- The end-of-turn flush of the playback queue:
`while not empty: get_nowait()`. -/
def drainQueue : List String → List String
  | [] => []
  | _ :: rest => drainQueue rest

/-- The tail of a turn after its units are processed: the end-of-turn
render when `disp` holds, then the full flush of the playback queue. -/
def finish_turn (st1 : RAState) (disp : Bool) (lastResp : Option Response) :
    RAState × Option Response :=
  let st2 :=
    if disp then
      { st1 with displays :=
          st1.displays ++ [get_all_lines_from_output st1.output_file] }
    else st1
  ({ st2 with audio_in_queue := drainQueue st2.audio_in_queue }, lastResp)

/-- The value of the `response` variable after the unit loop of a turn:
the turn's final unit, or the lingering unit of an earlier turn. -/
def last_response (rs : List Response) (prev : Option Response) :
    Option Response :=
  match rs.getLast? with
  | some r => some r
  | none => prev

/-- One full turn of `receive_audio`: iterate the stream's units, then
run the end-of-turn display when warranted, then flush the playback queue
entirely.  `prev` is the last unit of any earlier turn. -/
def process_turn (gf : List (String × String) → Except String GFResult)
    (prev : Option Response) (st : RAState) (rs : List Response) :
    Except String (RAState × Option Response) :=
  match run_responses gf rs (st, none) with
  | Except.error e => Except.error e
  | Except.ok acc =>
    match display_check acc.2 (last_response rs prev) with
    | Except.error e => Except.error e
    | Except.ok disp => Except.ok (finish_turn acc.1 disp (last_response rs prev))

/-- How the body of `receive_audio` eventually leaves its infinite loop
once the modelled turns are exhausted: cancellation or some exception. -/
inductive TailOutcome where
  | cancelled
  | raised (e : String)
  deriving DecidableEq, Repr

/-- The turn loop of `receive_audio`: process turns until one raises;
`some e` records an exception escaping the body. -/
def run_turns (gf : List (String × String) → Except String GFResult) :
    List (List Response) → Option Response → RAState → RAState × Option String
  | [], _, st => (st, none)
  | rs :: rest, prev, st =>
    match process_turn gf prev st rs with
    | Except.ok r => run_turns gf rest r.2 r.1
    | Except.error e => (st, some e)

/-- Whether `asyncio.TaskGroup` cancels the sibling tasks, as a function
of how one task finished: only a task that finishes with an exception
aborts the group; a task that returns normally leaves the others
running. -/
def task_group_cancels_siblings (r : Except String Unit) : Bool :=
  match r with
  | Except.ok _ => false
  | Except.error _ => true

/-- `AudioGeminiModel.receive_audio` with its outer try/except: a
cancellation is reported and swallowed, and any other exception from the
body is reported and swallowed too — the coroutine returns normally in
both cases.  The result is (final state, the task's outcome as seen by
the task group, the diagnostic lines printed). -/
def receive_audio_model (gf : List (String × String) → Except String GFResult)
    (turns : List (List Response)) (tail : TailOutcome) (st : RAState) :
    RAState × Except String Unit × List String :=
  match run_turns gf turns none st with
  | (st1, some e) => (st1, Except.ok (), ["Error in receive_audio: " ++ e])
  | (st1, none) =>
    match tail with
    | TailOutcome.cancelled =>
      (st1, Except.ok (), ["receive_audio cancelled cleanly."])
    | TailOutcome.raised e =>
      (st1, Except.ok (), ["Error in receive_audio: " ++ e])

/-! ## Session configuration (`create_config`) and connect -/

/-- Loading of the persisted handle at configuration time: when the
handle file exists its contents are read and stripped. -/
def load_session_handle (handle_file : Option String) : Option String :=
  match handle_file with
  | none => none
  | some s => some (pyStrip s)

/-- The parts of the `LiveConnectConfig` materialised by `create_config`
that the claims inspect, plus the handle its
`session_resumption=SessionResumptionConfig(handle=None)` carries. -/
structure LiveConnectConfig where
  response_modalities : List String
  media_resolution : String
  voice_name : String
  system_instruction : String
  session_resumption_handle : Option String
  deriving DecidableEq, Repr

/-- `AudioGeminiModel.create_config`: fails fast on an empty prompt;
otherwise loads the persisted session handle into `self.session_handle`
(first component) and builds the connect configuration — whose
session-resumption handle the source hardcodes to `None`. -/
def create_config (prompt : String) (handle_file : Option String) :
    Except String (Option String × LiveConnectConfig) :=
  if prompt = "" then
    Except.error "Prompt must be set before calling create_config()"
  else
    Except.ok (load_session_handle handle_file,
      { response_modalities := ["AUDIO"],
        media_resolution := "MEDIA_RESOLUTION_MEDIUM",
        voice_name := "Sulafat",
        system_instruction := prompt,
        session_resumption_handle := none })

/-- The resumption handle `run` offers to `client.aio.live.connect`: the
one carried by the configuration object it passes. -/
def handle_offered_to_connect (cfg : LiveConnectConfig) : Option String :=
  cfg.session_resumption_handle

/-! ## Concrete inputs used by the remaining claims -/

/-- An external `getFiles` callable that raises (for example a
`TypeError` on unexpected keyword arguments). -/
def gfRaising : List (String × String) → Except String GFResult :=
  fun _ => Except.error "boom"

/-- An inbound unit carrying a single tool call with no arguments. -/
def toolCallResponse (n : String) : Response :=
  { tool_calls := some [⟨n, []⟩], session_resumption_update := none,
    usage_metadata := none, data := none, server_content := none,
    text := none, turn_complete := false }

/-- An inbound unit carrying an audio chunk. -/
def audioResponse (d : String) : Response :=
  { tool_calls := none, session_resumption_update := none,
    usage_metadata := none, data := some d, server_content := none,
    text := none, turn_complete := false }

/-- An inbound unit carrying only a turn-complete marker. -/
def turnCompleteResponse : Response :=
  { tool_calls := none, session_resumption_update := none,
    usage_metadata := none, data := none, server_content := none,
    text := none, turn_complete := true }

/-- An inbound unit carrying a resumable session-resumption update. -/
def resumptionUpdateResponse (h : String) : Response :=
  { tool_calls := none, session_resumption_update := some ⟨true, some h⟩,
    usage_metadata := none, data := none, server_content := none,
    text := none, turn_complete := true }

/-! ### Claim theorems for the demultiplexer and the session lifecycle -/

theorem drainQueue_eq_nil : ∀ q : List String, drainQueue q = [] := by
  intro q
  induction q with
  | nil => rfl
  | cons a rest ih => exact ih

theorem finish_turn_queue_empty (st1 : RAState) (disp : Bool)
    (lastResp : Option Response) :
    (finish_turn st1 disp lastResp).1.audio_in_queue = [] := by
  unfold finish_turn
  cases disp <;> exact drainQueue_eq_nil _

/-- C5: whenever the demultiplexer finishes processing a turn boundary,
the audio playback queue is empty — regardless of the units of the turn,
of how many audio chunks they enqueued, and of what the queue held
before. -/
theorem playback_queue_empty_after_turn
    (gf : List (String × String) → Except String GFResult)
    (prev : Option Response) (st : RAState) (rs : List Response)
    (st1 : RAState) (pr : Option Response)
    (h : process_turn gf prev st rs = Except.ok (st1, pr)) :
    st1.audio_in_queue = [] := by
  unfold process_turn at h
  split at h
  · exact Except.noConfusion h
  · split at h
    · exact Except.noConfusion h
    · injection h with h1
      have h2 : (finish_turn _ _ _).1 = st1 := congrArg Prod.fst h1
      rw [← h2]
      exact finish_turn_queue_empty _ _ _

/-- C5 witness: a turn that enqueues an audio chunk on top of a stale one
and then completes leaves the playback queue empty. -/
theorem playback_queue_empty_after_turn_witness :
    ({ latest_session_handle := none, handle_file := none, output_file := none,
       audio_in_queue := [], sent_tool_responses := [], tracked_usage := [],
       displays := [[]] } : RAState).audio_in_queue = ([] : List String) :=
  playback_queue_empty_after_turn gfRaising none
    { initRAState with audio_in_queue := ["stale"] }
    [audioResponse "zz", turnCompleteResponse]
    { latest_session_handle := none, handle_file := none, output_file := none,
      audio_in_queue := [], sent_tool_responses := [], tracked_usage := [],
      displays := [[]] }
    (some turnCompleteResponse) rfl

/-- C8: a tool-call unit whose call name is not in the registry is
answered — without raising — by a correlated tool response carrying the
structured failure payload `success=false` with an error message naming
the unknown tool, sent with the end-of-turn marker. -/
theorem unknown_tool_structured_failure
    (gf : List (String × String) → Except String GFResult)
    (st : RAState) (lt : Option String) (r : Response)
    (nm : String) (args : List (String × String))
    (h1 : r.tool_calls = some [⟨nm, args⟩]) (h2 : nm ≠ "getFiles") :
    response_step gf (st, lt) r =
      Except.ok
        ({ st with sent_tool_responses := st.sent_tool_responses ++
            [⟨nm, ToolResultPayload.errorDict false ("Unknown tool: " ++ nm),
              true⟩] }, lt) := by
  simp [response_step, h1, send_tool_responses, dispatch_tool_call, h2]

/-- C8 witness: the unknown tool name "frobnicate". -/
theorem unknown_tool_structured_failure_witness :
    response_step gfRaising (initRAState, none) (toolCallResponse "frobnicate") =
      Except.ok
        ({ initRAState with sent_tool_responses :=
            [⟨"frobnicate",
              ToolResultPayload.errorDict false ("Unknown tool: " ++ "frobnicate"),
              true⟩] }, none) :=
  unknown_tool_structured_failure gfRaising initRAState none
    (toolCallResponse "frobnicate") "frobnicate" [] rfl (by decide)

/-- C3 (amended): a non-cancellation exception raised while the
demultiplexer processes the stream is reported and ends its loop, but it
is caught inside `receive_audio`, which completes normally — so the
failure does not propagate to the lifecycle controller's task group, and
the sibling tasks are not cancelled on its account. -/
theorem receive_audio_swallows_failures
    (gf : List (String × String) → Except String GFResult)
    (turns : List (List Response)) (tail : TailOutcome)
    (st st1 : RAState) (e : String)
    (h : run_turns gf turns none st = (st1, some e)) :
    receive_audio_model gf turns tail st =
      (st1, Except.ok (), ["Error in receive_audio: " ++ e]) ∧
    task_group_cancels_siblings
      (receive_audio_model gf turns tail st).2.1 = false := by
  unfold receive_audio_model
  rw [h]
  exact ⟨rfl, rfl⟩

/-- C3 witness: a turn whose `getFiles` call raises "boom". -/
theorem receive_audio_swallows_failures_witness :
    receive_audio_model gfRaising [[toolCallResponse "getFiles"]]
        TailOutcome.cancelled initRAState =
      (initRAState, Except.ok (), ["Error in receive_audio: " ++ "boom"]) :=
  (receive_audio_swallows_failures gfRaising [[toolCallResponse "getFiles"]]
    TailOutcome.cancelled initRAState initRAState "boom" rfl).1

/-- C3 counterexample to the claim as stated: at a concrete failing turn
the exception is reported, yet `receive_audio` finishes with `Except.ok`
— it does not propagate — and the task group therefore does not cancel
the sibling tasks. -/
theorem receive_audio_failure_not_propagated :
    receive_audio_model gfRaising [[toolCallResponse "getFiles"]]
        TailOutcome.cancelled initRAState =
      (initRAState, Except.ok (), ["Error in receive_audio: boom"]) ∧
    task_group_cancels_siblings
      (receive_audio_model gfRaising [[toolCallResponse "getFiles"]]
        TailOutcome.cancelled initRAState).2.1 = false :=
  ⟨rfl, rfl⟩

/-- C1 divergence, evaluated at the failing input: the demultiplexer
persists the handle "abc123" to the handle file; after a restart,
`create_config` loads exactly that string into `self.session_handle` —
and yet builds the connect configuration with
`session_resumption=SessionResumptionConfig(handle=None)`, so the
`connect` call is offered no handle at all rather than "abc123". -/
theorem session_handle_not_offered :
    (run_turns gfRaising [[resumptionUpdateResponse "abc123"]] none
      initRAState).1.handle_file = some "abc123" ∧
    create_config "You are a helpful assistant." (some "abc123") =
      Except.ok (some "abc123",
        { response_modalities := ["AUDIO"],
          media_resolution := "MEDIA_RESOLUTION_MEDIUM",
          voice_name := "Sulafat",
          system_instruction := "You are a helpful assistant.",
          session_resumption_handle := none }) ∧
    handle_offered_to_connect
        { response_modalities := ["AUDIO"],
          media_resolution := "MEDIA_RESOLUTION_MEDIUM",
          voice_name := "Sulafat",
          system_instruction := "You are a helpful assistant.",
          session_resumption_handle := none } = none ∧
    some "abc123" ≠ (none : Option String) := by
  refine ⟨rfl, rfl, rfl, by simp⟩

end GeminiAudioVisual
